import Mathlib

/-
Verification of the snippetbox web application (cmd/web/main.go, cmd/web/routes.go)
against its natural-language specification.  The Go code is shallowly embedded:
pure helpers become Lean functions, the middleware chain becomes an explicit
handler transformer, and the HTTP machinery (request, response, session, log)
becomes plain data.  Everything is computable so that concrete requests can be
evaluated with decide or rfl.
-/

set_option maxHeartbeats 1000000

namespace Snippetbox

/- ### HTTP model -/

/-- HTTP methods used by the application routes in routes.go. -/
inductive Method
  | GET
  | POST
deriving DecidableEq, Repr

/-- An HTTP response: status code, headers and body. -/
structure Response where
  status : Nat
  headers : List (String × String)
  body : String
deriving DecidableEq, Repr

/-- Model of Go net/http http.StatusText for the codes this application uses. -/
def statusText : Nat → String
  | 400 => "Bad Request"
  | 404 => "Not Found"
  | 405 => "Method Not Allowed"
  | 500 => "Internal Server Error"
  | _ => ""

/-- Model of Go net/http http.Error: writes the text plus a newline with the
given status code and the plain-text headers the standard library sets. -/
def httpError (text : String) (status : Nat) : Response :=
  { status := status
    headers := [("Content-Type", "text/plain; charset=utf-8"),
                ("X-Content-Type-Options", "nosniff")]
    body := text ++ "\n" }

/-- Model of Go net/http http.NotFound: http.Error with body
"404 page not found" and status 404. -/
def notFoundResponse : Response := httpError "404 page not found" 404

/- ### Session and request context model -/

/-- A value stored in the session (the scs session store holds arbitrary
values; string and numeric values are what this application stores). -/
inductive SessVal
  | str (s : String)
  | num (n : Nat)
deriving DecidableEq, Repr

/-- Server-side session data for one client, keyed by string. -/
abbrev Session := List (String × SessVal)

/-- Look up a session key (model of scs Get). -/
def lookupSess : Session → String → Option SessVal
  | [], _ => none
  | (k, v) :: rest, key => if k = key then some v else lookupSess rest key

/-- Remove a session key (model of scs Remove / the removal done by Pop). -/
def eraseSess (s : Session) (key : String) : Session :=
  s.filter (fun kv => kv.1 != key)

/-- A value stored in the request context under a context key.  Go context
values are dynamically typed; the constructors model a boolean, a string and
an integer arriving under the isAuthenticatedContextKey. -/
inductive CtxVal
  | bool (b : Bool)
  | str (s : String)
  | int (n : Int)
deriving DecidableEq, Repr

/-- An inbound HTTP request together with the ambient state the handlers
consult: the session loaded for its cookie, whether its CSRF token is valid
(the nosurf check), whether the user id referenced by the session still exists
in the store, the request-context slot for the isAuthenticated key, and the
CSRF token nosurf.Token would return for it. -/
structure Request where
  method : Method
  path : String
  session : Session
  csrfValid : Bool
  userExistsInStore : Bool
  ctxIsAuthenticated : Option CtxVal
  csrfToken : String
deriving DecidableEq, Repr

/-- Embedding of application.isAuthenticated (main.go): reads the request
context value for isAuthenticatedContextKey, type-asserts it to bool, and
returns false when the assertion fails. -/
def isAuthenticated (r : Request) : Bool :=
  match r.ctxIsAuthenticated with
  | some (CtxVal.bool b) => b
  | _ => false

/- ### Template data envelope (helpers.go part of main.go) -/

/-- Model of the scs type assertion done by PopString: a non-string popped
value becomes the empty string. -/
def sessValAsString : SessVal → String
  | SessVal.str s => s
  | _ => ""

/-- Model of scs SessionManager.PopString: reads the key, removes it from the
session, and returns the string value (empty string when the key is absent or
holds a non-string value). -/
def popString (s : Session) (key : String) : String × Session :=
  match lookupSess s key with
  | none => ("", s)
  | some v => (sessValAsString v, eraseSess s key)

/-- Modelled from the spec: the templateData struct (cmd/web/templates.go is
not under src/); its fields are exactly the ones assigned by newTemplateData
in the source. -/
structure templateData where
  Flash : String
  CurrentYear : Nat
  IsAuthenticated : Bool
  CSRFToken : String
deriving DecidableEq, Repr

/-- Embedding of application.newTemplateData (main.go): pops the flash message
from the session and fills the envelope with the current year, the
authentication flag and the CSRF token.  Returns the envelope together with
the session as left after the pop. -/
def newTemplateData (currentYear : Nat) (r : Request) : templateData × Session :=
  let popped := popString r.session "flash"
  ({ Flash := popped.1
     CurrentYear := currentYear
     IsAuthenticated := isAuthenticated r
     CSRFToken := r.csrfToken }, popped.2)

/- ### Server-side error helpers (main.go) -/

/-- Log levels of the two loggers created in main. -/
inductive LogLevel
  | info
  | error
deriving DecidableEq, Repr

/-- Server-side log: a list of (level, line) entries. -/
abbrev Log := List (LogLevel × String)

/-- Opaque stand-in for the text produced by runtime/debug.Stack(). -/
def stackTrace : String := "goroutine 1 [running]: ..."

/-- Embedding of application.serverError (main.go): appends the error message
and stack trace to the error log and sends
http.Error(w, http.StatusText(500), 500) to the client. -/
def serverError (errMsg : String) : Response × Log :=
  (httpError (statusText 500) 500, [(LogLevel.error, errMsg ++ "\n" ++ stackTrace)])

/-- Embedding of application.clientError (main.go). -/
def clientError (status : Nat) : Response := httpError (statusText status) status

/- ### Template rendering (main.go render) -/

/-- An entry of the template cache.  Executing a template writes output into a
buffer and may fail; run returns the buffer contents written so far together
with the error, if any (model of html/template ExecuteTemplate into a
bytes.Buffer). -/
structure Template where
  run : templateData → String × Option String

/-- Template cache lookup (map indexing ts, ok := app.templateCache[page]). -/
def lookupTemplate : List (String × Template) → String → Option Template
  | [], _ => none
  | (k, t) :: rest, key => if k = key then some t else lookupTemplate rest key

/-- Embedding of application.render (main.go): looks the page up in the cache
(serverError when missing), executes the template into a buffer (serverError
on failure, discarding the buffer), and only on success writes the provided
status code followed by the buffered body. -/
def render (cache : List (String × Template)) (status : Nat) (page : String)
    (data : templateData) : Response × Log :=
  match lookupTemplate cache page with
  | none => serverError ("the template " ++ page ++ " does not exist")
  | some ts =>
    match ts.run data with
    | (_, some e) => serverError e
    | (buf, none) => ({ status := status, headers := [], body := buf }, [])

/- ### snippetView (the handlers file concatenated into main.go) -/

/-- Decimal digit value of a character, none for a non-digit. -/
def digitVal (c : Char) : Option Nat :=
  if c.isDigit then some (c.toNat - 48) else none

/-- Parse a non-empty all-digit character list as a natural number. -/
def parseDigits (cs : List Char) : Option Nat :=
  match cs with
  | [] => none
  | _ =>
    cs.foldl
      (fun acc c =>
        match acc, digitVal c with
        | some n, some d => some (n * 10 + d)
        | _, _ => none)
      (some 0)

/-- Smallest Go int (64-bit) value. -/
def int64Min : Int := -(2 ^ 63)

/-- Largest Go int (64-bit) value. -/
def int64Max : Int := 2 ^ 63 - 1

/-- Embedding of Go strconv.Atoi: an optional single leading sign followed by
at least one digit, with the result required to fit in a 64-bit int; any
failure (including range overflow, which makes Atoi return a non-nil error)
is none. -/
def atoi (s : String) : Option Int :=
  let signed : Bool × List Char :=
    match s.data with
    | '-' :: rest => (true, rest)
    | '+' :: rest => (false, rest)
    | rest => (false, rest)
  match parseDigits signed.2 with
  | none => none
  | some n =>
    let v : Int := if signed.1 then -(n : Int) else (n : Int)
    if int64Min ≤ v ∧ v ≤ int64Max then some v else none

/-- Embedding of snippetView (main.go): reads the id query parameter, and when
strconv.Atoi fails or the value is below 1 replies http.NotFound; otherwise it
prints the display line with fmt.Fprint. -/
def snippetView (idParam : String) : Response :=
  match atoi idParam with
  | none => notFoundResponse
  | some id =>
    if id < 1 then notFoundResponse
    else { status := 200, headers := [],
           body := "Display a specific snippet with ID %d..." ++ toString id }

/- ### Middleware chain and route table (routes.go) -/

/-- The middlewares composed in routes.go (the alice chains). -/
inductive Middleware
  | recoverPanic
  | logRequest
  | secureHeaders
  | loadAndSave
  | noSurf
  | authenticate
  | requireAuthentication
deriving DecidableEq, Repr

/-- One router.Handler registration in routes.go: method, httprouter pattern,
the middleware chain wrapped around the handler inside the router, and the
name of the handler function. -/
structure Route where
  method : Method
  pattern : String
  chain : List Middleware
  handlerName : String
deriving DecidableEq, Repr

/-- The alice chain named dynamic in routes.go:
alice.New(app.sessionManager.LoadAndSave, noSurf, app.authenticate). -/
def dynamicChain : List Middleware :=
  [Middleware.loadAndSave, Middleware.noSurf, Middleware.authenticate]

/-- The alice chain named protected in routes.go:
dynamic.Append(app.requireAuthentication). -/
def protectedChain : List Middleware :=
  dynamicChain ++ [Middleware.requireAuthentication]

/-- The alice chain named standard in routes.go:
alice.New(app.recoverPanic, app.logRequest, secureHeaders). -/
def standardChain : List Middleware :=
  [Middleware.recoverPanic, Middleware.logRequest, Middleware.secureHeaders]

/-- The route registrations of routes.go, in source order.  The static file
route is registered directly on the router with no per-route chain; the
dynamic application routes use the dynamic chain; the three protected routes
use the protected chain. -/
def routes : List Route :=
  [ { method := Method.GET, pattern := "/static/*filepath", chain := [],
      handlerName := "fileServer" },
    { method := Method.GET, pattern := "/", chain := dynamicChain,
      handlerName := "home" },
    { method := Method.GET, pattern := "/snippet/view/:id", chain := dynamicChain,
      handlerName := "snippetView" },
    { method := Method.GET, pattern := "/user/signup", chain := dynamicChain,
      handlerName := "userSignup" },
    { method := Method.POST, pattern := "/user/signup", chain := dynamicChain,
      handlerName := "userSignupPost" },
    { method := Method.POST, pattern := "/user/login", chain := dynamicChain,
      handlerName := "userLoginPost" },
    { method := Method.GET, pattern := "/user/login", chain := dynamicChain,
      handlerName := "userLogin" },
    { method := Method.POST, pattern := "/snippet/create", chain := protectedChain,
      handlerName := "snippetCreatePost" },
    { method := Method.GET, pattern := "/snippet/create", chain := protectedChain,
      handlerName := "snippetCreate" },
    { method := Method.POST, pattern := "/user/logout", chain := protectedChain,
      handlerName := "userLogoutPost" } ]

/-- The complete middleware chain a request matching the route passes through:
routes.go returns standard.Then(router), and the router then applies the
per-route chain before the handler. -/
def fullChain (r : Route) : List Middleware := standardChain ++ r.chain

/-- The three registrations the claims call protected routes. -/
def protectedRoutePatterns : List (Method × String) :=
  [(Method.POST, "/snippet/create"), (Method.GET, "/snippet/create"),
   (Method.POST, "/user/logout")]

/-- Whether a route is one of the protected registrations. -/
def isProtectedRoute (r : Route) : Bool :=
  decide ((r.method, r.pattern) ∈ protectedRoutePatterns)

/-- Follows the wording of claim C1: panic recovery, then request logging,
then security headers, then session load/save, then CSRF validation, then
identity propagation, and, on protected routes only, the authentication
requirement. -/
def claimedChain (r : Route) : List Middleware :=
  [Middleware.recoverPanic, Middleware.logRequest, Middleware.secureHeaders,
   Middleware.loadAndSave, Middleware.noSurf, Middleware.authenticate] ++
  (if isProtectedRoute r then [Middleware.requireAuthentication] else [])

/- ### Middleware semantics -/

/-- Outcome of running a handler: a response, or an unhandled panic. -/
inductive HResult
  | success (resp : Response)
  | panicked (msg : String)
deriving DecidableEq, Repr

/-- A handler maps a request to an outcome plus server-side log entries. -/
abbrev Handler := Request → HResult × Log

/-- Modelled from the spec: the static response headers set unconditionally by
the secureHeaders middleware (cmd/web/middleware.go is not under src/) -
content security policy, frame options, etc.; the claims never inspect the
header values. -/
def secureHeadersSet : List (String × String) :=
  [("Content-Security-Policy", "default-src self"),
   ("Referrer-Policy", "origin-when-cross-origin"),
   ("X-Content-Type-Options", "nosniff"),
   ("X-Frame-Options", "deny"),
   ("X-XSS-Protection", "0")]

/-- Prepend headers to a response. -/
def addHeaders (hs : List (String × String)) (resp : Response) : Response :=
  { resp with headers := hs ++ resp.headers }

/-- Model of Go http.Redirect with http.StatusSeeOther. -/
def redirectResponse (location : String) : Response :=
  { status := 303, headers := [("Location", location)], body := "" }

/-- Render a method for the request log line. -/
def methodName : Method → String
  | Method.GET => "GET"
  | Method.POST => "POST"

/-- The per-request line logged by the logRequest middleware. -/
def logLine (r : Request) : String := methodName r.method ++ " " ++ r.path

/-- The session key under which the login handler stores the authenticated
user id. -/
def authenticatedUserIDKey : String := "authenticatedUserID"

/-- Modelled from the spec: the behaviour of each middleware
(cmd/web/middleware.go is not under src/; LoadAndSave, noSurf and alice are
external libraries).  recoverPanic catches a panic from downstream, logs it
with a stack trace and replies a generic 500 with Connection close; logRequest
records method and URL; secureHeaders adds the static security headers to the
response; LoadAndSave passes through (the session travels on the request);
noSurf rejects a state-changing request whose CSRF token is invalid with a 400
before calling downstream; authenticate looks the authenticatedUserID key up
in the session, and when the referenced user exists sets the context
isAuthenticated flag to true, while on a failed lookup it removes the stale
key and stays anonymous; requireAuthentication forwards authenticated
requests, and otherwise replies a see-other redirect to /user/login (the spec
also has it store the requested path in the session for the post-login
redirect, a session write outside this response model). -/
def runMiddleware : Middleware → Handler → Handler
  | Middleware.recoverPanic, next => fun r =>
    match next r with
    | (HResult.panicked msg, l) =>
      (HResult.success (addHeaders [("Connection", "close")] (serverError msg).1),
       l ++ (serverError msg).2)
    | out => out
  | Middleware.logRequest, next => fun r =>
    let out := next r
    (out.1, (LogLevel.info, logLine r) :: out.2)
  | Middleware.secureHeaders, next => fun r =>
    match next r with
    | (HResult.success resp, l) => (HResult.success (addHeaders secureHeadersSet resp), l)
    | out => out
  | Middleware.loadAndSave, next => fun r => next r
  | Middleware.noSurf, next => fun r =>
    if r.method = Method.POST ∧ r.csrfValid = false
    then (HResult.success (httpError (statusText 400) 400), [])
    else next r
  | Middleware.authenticate, next => fun r =>
    match lookupSess r.session authenticatedUserIDKey with
    | none => next r
    | some _ =>
      if r.userExistsInStore
      then next { r with ctxIsAuthenticated := some (CtxVal.bool true) }
      else next { r with session := eraseSess r.session authenticatedUserIDKey }
  | Middleware.requireAuthentication, next => fun r =>
    if isAuthenticated r
    then next r
    else (HResult.success (redirectResponse "/user/login"), [])

/-- Run a middleware chain around a handler (alice composes left-to-right, so
the head of the list is outermost). -/
def runChain (ms : List Middleware) (h : Handler) : Handler :=
  ms.foldr runMiddleware h

/-- Whether the request arrives with an authenticated session: the session
holds an authenticatedUserID and that user still exists in the store. -/
def authenticatedSession (r : Request) : Bool :=
  (lookupSess r.session authenticatedUserIDKey).isSome && r.userExistsInStore

/- ### Static file serving (routes.go fileServer) -/

/-- An entry of a served filesystem: a regular file with contents, or a
directory with an optional index.html body and the names of its entries. -/
inductive FSEntry
  | file (content : String)
  | dir (index : Option String) (entries : List String)
deriving DecidableEq, Repr

/-- Strip leading and trailing slashes from a URL path, giving the name looked
up in the fs.FS (the static route passes the URL path straight to the file
server without stripping the /static prefix, so /static/css/main.css opens
static/css/main.css in ui.Files). -/
def cleanPath (s : String) : String :=
  String.mk (((s.data.dropWhile (fun c => c == '/')).reverse.dropWhile
    (fun c => c == '/')).reverse)

/-- The body of the directory listing page generated by http.FileServer. -/
def dirListBody (entries : List String) : String :=
  "<pre>\n" ++ String.intercalate "\n" entries ++ "\n</pre>\n"

/-- The directory listing response generated by http.FileServer. -/
def dirListingResponse (entries : List String) : Response :=
  { status := 200
    headers := [("Content-Type", "text/html; charset=utf-8")]
    body := dirListBody entries }

/-- Model of Go net/http http.FileServer over an abstract filesystem: a
missing name is a 404, a regular file is served, a directory with an
index.html serves the index, and a directory without one gets the generated
directory listing (routes.go uses http.FileServer directly; the
listing-suppressing neuteredFileSystem wrapper is commented out). -/
def serveFileServer (fs : String → Option FSEntry) (urlPath : String) : Response :=
  match fs (cleanPath urlPath) with
  | none => notFoundResponse
  | some (FSEntry.file c) => { status := 200, headers := [], body := c }
  | some (FSEntry.dir (some ix) _) => { status := 200, headers := [], body := ix }
  | some (FSEntry.dir none entries) => dirListingResponse entries

/-- Modelled from the spec: the ui.Files embedded filesystem (package ui is
not under src/).  Per the routes.go comments the static assets live in the
static folder, for example the stylesheet static/css/main.css; no index.html
is present. -/
def uiFiles : String → Option FSEntry
  | "static" => some (FSEntry.dir none ["css"])
  | "static/css" => some (FSEntry.dir none ["main.css"])
  | "static/css/main.css" => some (FSEntry.file "main.css bytes")
  | _ => none

/- ### TLS configuration (main.go) -/

/-- TLS protocol versions. -/
inductive TLSVersion
  | tls10
  | tls11
  | tls12
  | tls13
deriving DecidableEq, Repr

/-- Numeric order of TLS versions. -/
def TLSVersion.toNat : TLSVersion → Nat
  | TLSVersion.tls10 => 10
  | TLSVersion.tls11 => 11
  | TLSVersion.tls12 => 12
  | TLSVersion.tls13 => 13

/-- The elliptic curves relevant to the configuration. -/
inductive CurveID
  | x25519
  | curveP256
  | curveP384
  | curveP521
deriving DecidableEq, Repr

/-- The fields of Go crypto/tls Config that main.go touches; none for an
unset (zero) field. -/
structure TLSConfig where
  curvePreferences : List CurveID
  minVersion : Option TLSVersion
  maxVersion : Option TLSVersion
deriving DecidableEq, Repr

/-- Embedding of the tlsConfig literal in main.go: CurvePreferences X25519 and
P-256, MaxVersion TLS 1.3, and no other field set. -/
def tlsConfig : TLSConfig :=
  { curvePreferences := [CurveID.x25519, CurveID.curveP256]
    minVersion := none
    maxVersion := some TLSVersion.tls13 }

/-- Model of the Go crypto/tls default: when Config.MinVersion is zero a
server accepts connections down to TLS 1.0. -/
def defaultServerMinVersion : TLSVersion := TLSVersion.tls10

/-- Whether the configuration lets a server negotiate the given protocol
version. -/
def versionAllowed (c : TLSConfig) (v : TLSVersion) : Bool :=
  decide ((c.minVersion.getD defaultServerMinVersion).toNat ≤ v.toNat) &&
  decide (v.toNat ≤ (c.maxVersion.getD TLSVersion.tls13).toNat)

/-- All TLS protocol versions. -/
def allTLSVersions : List TLSVersion :=
  [TLSVersion.tls10, TLSVersion.tls11, TLSVersion.tls12, TLSVersion.tls13]

/-- A modern TLS protocol version (TLS 1.2 or newer). -/
def modernTLSVersion (v : TLSVersion) : Bool :=
  decide (TLSVersion.tls12.toNat ≤ v.toNat)

/-- Follows the wording of claim C7: the configuration restricts connections
to modern protocol versions, that is, every version it allows is modern. -/
def restrictsToModernVersions (c : TLSConfig) : Bool :=
  allTLSVersions.all (fun v => !versionAllowed c v || modernTLSVersion v)

/-- The server setup of main.go: listen address, TLS configuration and the
certificate/key pair passed to ListenAndServeTLS. -/
structure ServerSetup where
  addr : String
  tls : TLSConfig
  certFile : String
  keyFile : String
deriving DecidableEq, Repr

/-- Embedding of the http.Server construction and the ListenAndServeTLS call
in main.go (with the default -addr flag value). -/
def srv : ServerSetup :=
  { addr := ":4000"
    tls := tlsConfig
    certFile := "./tls/cert.pem"
    keyFile := "./tls/key.pem" }

/- ### Concrete routes, requests and handlers used to evaluate the theorems -/

/-- The static file registration of routes.go. -/
def staticRoute : Route :=
  { method := Method.GET, pattern := "/static/*filepath", chain := [],
    handlerName := "fileServer" }

/-- The protected GET /snippet/create registration of routes.go. -/
def createGetRoute : Route :=
  { method := Method.GET, pattern := "/snippet/create", chain := protectedChain,
    handlerName := "snippetCreate" }

/-- A handler that replies with a fixed 200 response. -/
def handlerA : Handler :=
  fun _ => (HResult.success { status := 200, headers := [], body := "A" }, [])

/-- A handler that replies with a fixed 200 response, distinct from handlerA. -/
def handlerB : Handler :=
  fun _ => (HResult.success { status := 200, headers := [], body := "B" }, [])

/-- A handler that panics, for exercising the recovery middleware. -/
def panicHandler : Handler := fun _ => (HResult.panicked "kaboom", [])

/-- An anonymous request with a fresh context and an empty session. -/
def plainReq : Request :=
  { method := Method.GET, path := "/", session := [], csrfValid := true,
    userExistsInStore := false, ctxIsAuthenticated := none, csrfToken := "" }

/-- An unauthenticated GET request for the protected create form. -/
def witnessReq : Request :=
  { method := Method.GET, path := "/snippet/create", session := [], csrfValid := true,
    userExistsInStore := false, ctxIsAuthenticated := none, csrfToken := "tok" }

/-- An unauthenticated POST to the protected create route whose CSRF token is
invalid (for example a direct POST that never fetched the form). -/
def cexReq : Request :=
  { method := Method.POST, path := "/snippet/create", session := [], csrfValid := false,
    userExistsInStore := false, ctxIsAuthenticated := none, csrfToken := "" }

/-- A sample template data envelope. -/
def dataW : templateData :=
  { Flash := "", CurrentYear := 2024, IsAuthenticated := false, CSRFToken := "" }

/- ### Helper lemmas -/

/-- Looking a key up after erasing it finds nothing. -/
theorem lookupSess_eraseSess (s : Session) (key : String) :
    lookupSess (eraseSess s key) key = none := by
  induction s with
  | nil => rfl
  | cons kv rest ih =>
    rcases kv with ⟨k, v⟩
    by_cases h : k = key
    · subst h
      simpa [eraseSess, List.filter_cons] using ih
    · have hb : (k != key) = true := by simpa using h
      simpa [eraseSess, List.filter_cons, hb, lookupSess, h] using ih

/-- The session load/save middleware forwards the request unchanged. -/
theorem runMiddleware_loadAndSave (next : Handler) (r : Request) :
    runMiddleware Middleware.loadAndSave next r = next r := rfl

/-- The security-header middleware adds the static headers to a successful
downstream response. -/
theorem runMiddleware_secureHeaders_success (next : Handler) (r : Request)
    (resp : Response) (l : Log) (h : next r = (HResult.success resp, l)) :
    runMiddleware Middleware.secureHeaders next r =
      (HResult.success (addHeaders secureHeadersSet resp), l) := by
  simp only [runMiddleware, h]

/-- The logging middleware prepends the request line and forwards. -/
theorem runMiddleware_logRequest (next : Handler) (r : Request) :
    runMiddleware Middleware.logRequest next r =
      ((next r).1, (LogLevel.info, logLine r) :: (next r).2) := rfl

/-- The recovery middleware passes a successful downstream outcome through. -/
theorem runMiddleware_recoverPanic_success (next : Handler) (r : Request)
    (resp : Response) (l : Log) (h : next r = (HResult.success resp, l)) :
    runMiddleware Middleware.recoverPanic next r = (HResult.success resp, l) := by
  simp only [runMiddleware, h]

/-- The CSRF middleware forwards a request that is not a CSRF-invalid POST. -/
theorem runMiddleware_noSurf_pass (next : Handler) (r : Request)
    (h : ¬(r.method = Method.POST ∧ r.csrfValid = false)) :
    runMiddleware Middleware.noSurf next r = next r := by
  simp only [runMiddleware, if_neg h]

/-- The authentication-requirement middleware short-circuits an anonymous
request to the login redirect without calling downstream. -/
theorem runMiddleware_requireAuth_anon (next : Handler) (r : Request)
    (h : isAuthenticated r = false) :
    runMiddleware Middleware.requireAuthentication next r =
      (HResult.success (redirectResponse "/user/login"), []) := by
  simp only [runMiddleware, h]
  simp

/-- Running the full protected pipeline on a request that arrives with a fresh
context, no authenticated session, and a passing CSRF check yields the login
redirect (decorated with the security headers and the request log line), no
matter what the final handler is. -/
theorem runChain_protected_unauthenticated (h : Handler) (r : Request)
    (hctx : r.ctxIsAuthenticated = none)
    (hsess : authenticatedSession r = false)
    (hcsrf : r.method = Method.POST → r.csrfValid = true) :
    runChain (standardChain ++ protectedChain) h r =
      (HResult.success (addHeaders secureHeadersSet (redirectResponse "/user/login")),
       [(LogLevel.info, logLine r)]) := by
  have hnosurf : ¬(r.method = Method.POST ∧ r.csrfValid = false) := by
    rintro ⟨hm, hv⟩
    rw [hcsrf hm] at hv
    exact Bool.noConfusion hv
  have hchain : standardChain ++ protectedChain =
      [Middleware.recoverPanic, Middleware.logRequest, Middleware.secureHeaders,
       Middleware.loadAndSave, Middleware.noSurf, Middleware.authenticate,
       Middleware.requireAuthentication] := rfl
  have hcore : runMiddleware Middleware.authenticate
      (runMiddleware Middleware.requireAuthentication h) r =
      (HResult.success (redirectResponse "/user/login"), []) := by
    rcases hl : lookupSess r.session authenticatedUserIDKey with _ | v
    · simp [runMiddleware, hl, isAuthenticated, hctx]
    · have hue : r.userExistsInStore = false := by
        unfold authenticatedSession at hsess
        rw [hl] at hsess
        simpa using hsess
      simp [runMiddleware, hl, hue, isAuthenticated, hctx]
  have h1 : runMiddleware Middleware.noSurf
      (runMiddleware Middleware.authenticate
        (runMiddleware Middleware.requireAuthentication h)) r =
      (HResult.success (redirectResponse "/user/login"), []) := by
    rw [runMiddleware_noSurf_pass _ r hnosurf]
    exact hcore
  have h2 : runMiddleware Middleware.loadAndSave
      (runMiddleware Middleware.noSurf
        (runMiddleware Middleware.authenticate
          (runMiddleware Middleware.requireAuthentication h))) r =
      (HResult.success (redirectResponse "/user/login"), []) := by
    rw [runMiddleware_loadAndSave]
    exact h1
  have h3 := runMiddleware_secureHeaders_success _ r _ _ h2
  have h4 : runMiddleware Middleware.logRequest
      (runMiddleware Middleware.secureHeaders
        (runMiddleware Middleware.loadAndSave
          (runMiddleware Middleware.noSurf
            (runMiddleware Middleware.authenticate
              (runMiddleware Middleware.requireAuthentication h))))) r =
      (HResult.success (addHeaders secureHeadersSet (redirectResponse "/user/login")),
       [(LogLevel.info, logLine r)]) := by
    rw [runMiddleware_logRequest, h3]
  have h5 := runMiddleware_recoverPanic_success _ r _ _ h4
  rw [hchain]
  simp only [runChain, List.foldr_cons, List.foldr_nil]
  exact h5

/- ### Claim theorems -/

/-- C1 (counterexample): the claim quantifies over every request, but the
registered static file route runs none of the session, CSRF, or identity
middlewares: its full chain is not the chain the claim fixes. -/
theorem static_route_misses_session_chain :
    staticRoute ∈ routes ∧ fullChain staticRoute ≠ claimedChain staticRoute := by
  decide

/-- C1 (amended): every registered route other than the static file route
passes through exactly the claimed fixed middleware order - panic recovery,
request logging, security headers, session load/save, CSRF validation,
identity propagation, and, on the protected routes only, the authentication
requirement - before its handler, while the static file route passes only
through panic recovery, request logging and security headers. -/
theorem dynamic_routes_follow_claimed_chain :
    ((routes.filter (fun r => r.pattern != "/static/*filepath")).all
      (fun r => decide (fullChain r = claimedChain r))) = true ∧
    fullChain staticRoute = standardChain := by
  decide

/-- C5: the router registers exactly the ten claimed method/pattern pairs, in
source order, and exactly the two /snippet/create registrations and
POST /user/logout carry the authentication-requirement middleware. -/
theorem routes_registered_exactly :
    routes.map (fun r =>
        (r.method, r.pattern, decide (Middleware.requireAuthentication ∈ r.chain))) =
      [(Method.GET, "/static/*filepath", false),
       (Method.GET, "/", false),
       (Method.GET, "/snippet/view/:id", false),
       (Method.GET, "/user/signup", false),
       (Method.POST, "/user/signup", false),
       (Method.POST, "/user/login", false),
       (Method.GET, "/user/login", false),
       (Method.POST, "/snippet/create", true),
       (Method.GET, "/snippet/create", true),
       (Method.POST, "/user/logout", true)] := by
  decide

/-- C2 (counterexample): an unauthenticated POST to the protected
/snippet/create route whose CSRF token is invalid is rejected by the CSRF
middleware with a 400 Bad Request before the authentication requirement runs,
so the response is not a redirect to the login page. -/
theorem csrf_failing_unauthenticated_post_gets_400 :
    (runChain (standardChain ++ protectedChain) handlerA cexReq).1 =
      HResult.success (addHeaders secureHeadersSet (httpError (statusText 400) 400)) ∧
    (addHeaders secureHeadersSet (httpError (statusText 400) 400)).status ≠ 303 ∧
    ("Location", "/user/login") ∉
      (addHeaders secureHeadersSet (httpError (statusText 400) 400)).headers := by
  decide

/-- C2 (amended): for every request to a protected route that arrives with a
fresh context and no authenticated session and passes the CSRF check (GET
requests are exempt from it), the pipeline replies with a see-other redirect
to /user/login, and the route handler is never reached: the outcome is the
same for any two handlers. -/
theorem protected_routes_redirect_unauthenticated :
    ∀ route ∈ routes, route.chain = protectedChain →
    ∀ (h h2 : Handler) (r : Request),
    r.ctxIsAuthenticated = none →
    authenticatedSession r = false →
    (r.method = Method.POST → r.csrfValid = true) →
    runChain (fullChain route) h r = runChain (fullChain route) h2 r ∧
    (runChain (fullChain route) h r).1 =
      HResult.success (addHeaders secureHeadersSet (redirectResponse "/user/login")) := by
  intro route _ hchain h h2 r hctx hsess hcsrf
  unfold fullChain
  rw [hchain]
  constructor
  · rw [runChain_protected_unauthenticated h r hctx hsess hcsrf,
        runChain_protected_unauthenticated h2 r hctx hsess hcsrf]
  · rw [runChain_protected_unauthenticated h r hctx hsess hcsrf]

/-- C2 (witness): the amended theorem applied to the protected GET
/snippet/create route and a concrete anonymous request. -/
theorem protected_routes_redirect_unauthenticated_witness :
    createGetRoute ∈ routes ∧
    runChain (fullChain createGetRoute) handlerA witnessReq =
      runChain (fullChain createGetRoute) handlerB witnessReq ∧
    (runChain (fullChain createGetRoute) handlerA witnessReq).1 =
      HResult.success (addHeaders secureHeadersSet (redirectResponse "/user/login")) :=
  ⟨by decide,
   protected_routes_redirect_unauthenticated createGetRoute (by decide) rfl
     handlerA handlerB witnessReq rfl (by decide) (fun _ => rfl)⟩

/-- C3: whenever the id query parameter does not parse as an integer, or
parses to an integer below one, snippetView replies with the http.NotFound
response and displays no snippet. -/
theorem snippetView_invalid_id_not_found :
    ∀ idParam : String,
    (atoi idParam = none ∨ ∃ n, atoi idParam = some n ∧ n < 1) →
    snippetView idParam = notFoundResponse := by
  intro s h
  rcases h with h | ⟨n, hn, hlt⟩
  · simp [snippetView, h]
  · simp [snippetView, hn, hlt]

/-- C3 (witness): the id parameter 0 parses to an integer below one and gets
the not-found response. -/
theorem snippetView_invalid_id_not_found_witness :
    (atoi "0" = none ∨ ∃ n, atoi "0" = some n ∧ n < 1) ∧
    snippetView "0" = notFoundResponse :=
  have h : atoi "0" = none ∨ ∃ n, atoi "0" = some n ∧ n < 1 :=
    Or.inr ⟨0, by decide, by decide⟩
  ⟨h, snippetView_invalid_id_not_found "0" h⟩

/-- C4: every server error path replies with the generic 500 response whose
body is exactly the generic status text: serverError sends the same fixed
response for every error while appending the details and stack trace only to
the error log; render routes both of its failure cases through serverError;
and the panic-recovery middleware turns a downstream panic into the same
generic 500 (plus Connection close) while logging the panic value with a
stack trace. -/
theorem server_errors_generic_500 :
    ((httpError (statusText 500) 500).status = 500 ∧
     (httpError (statusText 500) 500).body = "Internal Server Error\n") ∧
    (∀ errMsg : String,
      (serverError errMsg).1 = httpError (statusText 500) 500 ∧
      (serverError errMsg).2 = [(LogLevel.error, errMsg ++ "\n" ++ stackTrace)]) ∧
    (∀ errMsg1 errMsg2 : String, (serverError errMsg1).1 = (serverError errMsg2).1) ∧
    (∀ cache status page data, lookupTemplate cache page = none →
      (render cache status page data).1 = httpError (statusText 500) 500) ∧
    (∀ cache status page data ts buf e, lookupTemplate cache page = some ts →
      ts.run data = (buf, some e) →
      (render cache status page data).1 = httpError (statusText 500) 500) ∧
    (∀ (next : Handler) (r : Request) (msg : String) (l : Log),
      next r = (HResult.panicked msg, l) →
      (runMiddleware Middleware.recoverPanic next r).1 =
        HResult.success (addHeaders [("Connection", "close")]
          (httpError (statusText 500) 500)) ∧
      (runMiddleware Middleware.recoverPanic next r).2 =
        l ++ [(LogLevel.error, msg ++ "\n" ++ stackTrace)]) := by
  refine ⟨⟨rfl, rfl⟩, fun errMsg => ⟨rfl, rfl⟩, fun a b => rfl, ?_, ?_, ?_⟩
  · intro cache status page data hnone
    simp [render, hnone, serverError]
  · intro cache status page data ts buf e hts hrun
    simp [render, hts, hrun, serverError]
  · intro next r msg l h
    constructor <;> simp [runMiddleware, h, serverError]

/-- C4 (witness): the generic-500 theorem evaluated on a concrete store error
message and on a concrete panicking handler. -/
theorem server_errors_generic_500_witness :
    (serverError "sql: connection refused").1 = httpError (statusText 500) 500 ∧
    (runMiddleware Middleware.recoverPanic panicHandler plainReq).1 =
      HResult.success (addHeaders [("Connection", "close")]
        (httpError (statusText 500) 500)) :=
  ⟨(server_errors_generic_500.2.1 "sql: connection refused").1,
   (server_errors_generic_500.2.2.2.2.2 panicHandler plainReq "kaboom" [] rfl).1⟩

/-- C6 (counterexample): a GET request for /static/css/, an existing directory
of the embedded filesystem with no index.html, is answered by the plain
http.FileServer with a generated directory listing, not a 404. -/
theorem static_dir_listing_returned :
    serveFileServer uiFiles "/static/css/" = dirListingResponse ["main.css"] ∧
    dirListingResponse ["main.css"] ≠ notFoundResponse := by
  decide

/-- C6 (amended): for every filesystem and every request path under the static
route that names no existing entry, the file server replies 404 Not Found;
but a path naming an existing directory without an index file receives a
directory listing, because the listing-suppressing wrapper is commented out. -/
theorem fileserver_missing_file_not_found :
    ∀ (fs : String → Option FSEntry) (p : String),
    fs (cleanPath p) = none → serveFileServer fs p = notFoundResponse := by
  intro fs p h
  simp [serveFileServer, h]

/-- C6 (witness): a request for a stylesheet that does not exist in ui.Files
gets the 404 response. -/
theorem fileserver_missing_file_not_found_witness :
    uiFiles (cleanPath "/static/missing.css") = none ∧
    serveFileServer uiFiles "/static/missing.css" = notFoundResponse :=
  ⟨by decide,
   fileserver_missing_file_not_found uiFiles "/static/missing.css" (by decide)⟩

/-- C7 (counterexample): the TLS configuration of main.go does not restrict
connections to modern protocol versions: it sets MaxVersion but no MinVersion,
so with the library default a server still accepts TLS 1.0. -/
theorem tls_allows_pre_modern_versions :
    restrictsToModernVersions tlsConfig = false ∧
    versionAllowed tlsConfig TLSVersion.tls10 = true ∧
    modernTLSVersion TLSVersion.tls10 = false := by
  decide

/-- C7 (amended): the server serves HTTPS with the fixed pair ./tls/cert.pem
and ./tls/key.pem and a TLS configuration that restricts curve preferences to
the modern curves X25519 and P-256 and caps the protocol version at TLS 1.3,
while setting no minimum protocol version. -/
theorem tls_setup_fields :
    srv.certFile = "./tls/cert.pem" ∧
    srv.keyFile = "./tls/key.pem" ∧
    srv.tls = tlsConfig ∧
    tlsConfig.curvePreferences = [CurveID.x25519, CurveID.curveP256] ∧
    tlsConfig.maxVersion = some TLSVersion.tls13 ∧
    tlsConfig.minVersion = none := by
  decide

/-- C8: the template data envelope built by newTemplateData carries exactly
the flash message popped from the session (with the flash key removed from
the resulting session), the supplied current year, the request
authentication flag, and the request CSRF token. -/
theorem newTemplateData_exact_envelope :
    ∀ (y : Nat) (r : Request),
    (newTemplateData y r).1.Flash =
      sessValAsString ((lookupSess r.session "flash").getD (SessVal.str "")) ∧
    lookupSess (newTemplateData y r).2 "flash" = none ∧
    (newTemplateData y r).1.CurrentYear = y ∧
    (newTemplateData y r).1.IsAuthenticated = isAuthenticated r ∧
    (newTemplateData y r).1.CSRFToken = r.csrfToken := by
  intro y r
  rcases hl : lookupSess r.session "flash" with _ | v
  · refine ⟨?_, ?_, rfl, rfl, rfl⟩
    · simp [newTemplateData, popString, hl, sessValAsString]
    · simp [newTemplateData, popString, hl]
  · refine ⟨?_, ?_, rfl, rfl, rfl⟩
    · simp [newTemplateData, popString, hl]
    · simp [newTemplateData, popString, hl, lookupSess_eraseSess]

/-- C9: the isAuthenticated helper returns true exactly when the request
context holds the boolean true under the isAuthenticated key; when the key is
absent or holds a value of a non-boolean type it returns false, treating the
request as anonymous. -/
theorem isAuthenticated_defaults_false :
    ∀ r : Request,
    (isAuthenticated r = true ↔ r.ctxIsAuthenticated = some (CtxVal.bool true)) ∧
    (r.ctxIsAuthenticated = none → isAuthenticated r = false) ∧
    (∀ s, r.ctxIsAuthenticated = some (CtxVal.str s) → isAuthenticated r = false) ∧
    (∀ n, r.ctxIsAuthenticated = some (CtxVal.int n) → isAuthenticated r = false) := by
  intro r
  rcases hc : r.ctxIsAuthenticated with _ | v
  · refine ⟨?_, ?_, ?_, ?_⟩ <;> simp [isAuthenticated, hc]
  · cases v with
    | bool b => cases b <;> refine ⟨?_, ?_, ?_, ?_⟩ <;> simp [isAuthenticated, hc]
    | str s => refine ⟨?_, ?_, ?_, ?_⟩ <;> simp [isAuthenticated, hc]
    | int n => refine ⟨?_, ?_, ?_, ?_⟩ <;> simp [isAuthenticated, hc]

/-- C9 (witness): a request whose context lacks the key is treated as
anonymous. -/
theorem isAuthenticated_defaults_false_witness :
    isAuthenticated plainReq = false :=
  (isAuthenticated_defaults_false plainReq).2.1 rfl

/-- C10: render writes the requested status and the fully executed template
output only when the page is found in the cache and execution into the buffer
completes without error; a missing page or a failed execution yields the
generic 500 whose body carries none of the buffered output. -/
theorem render_writes_only_complete_output :
    ∀ (cache : List (String × Template)) (status : Nat) (page : String)
      (data : templateData),
    (lookupTemplate cache page = none →
      (render cache status page data).1.status = 500 ∧
      (render cache status page data).1.body = statusText 500 ++ "\n") ∧
    (∀ ts buf e, lookupTemplate cache page = some ts → ts.run data = (buf, some e) →
      (render cache status page data).1.status = 500 ∧
      (render cache status page data).1.body = statusText 500 ++ "\n") ∧
    (∀ ts out, lookupTemplate cache page = some ts → ts.run data = (out, none) →
      render cache status page data =
        ({ status := status, headers := [], body := out }, [])) := by
  intro cache status page data
  refine ⟨?_, ?_, ?_⟩
  · intro hnone
    constructor <;> simp [render, hnone, serverError, httpError]
  · intro ts buf e hts hrun
    constructor <;> simp [render, hts, hrun, serverError, httpError]
  · intro ts out hts hrun
    simp [render, hts, hrun]

/-- C10 (witness): rendering a page missing from an empty cache yields the
generic 500 body. -/
theorem render_writes_only_complete_output_witness :
    (render [] 200 "home.tmpl" dataW).1.status = 500 ∧
    (render [] 200 "home.tmpl" dataW).1.body = statusText 500 ++ "\n" :=
  (render_writes_only_complete_output [] 200 "home.tmpl" dataW).1 rfl

end Snippetbox
